import Mathlib

/-!
Shallow embedding of the RainPro forecast backend (agents/prediction_agent.py,
agents/forecast_publisher_agent.py, agents/intent_agent.py,
agents/preprocessing_agent.py, agents/rainfall_graph.py) and verification of
its specification claims.

Numeric values are modelled as rationals.  The transcendental float
operations of numpy (`expm1`, `log1p`, `sqrt`) are injected as abstract
functions `ℚ → ℚ`; every theorem quantifies over them, so the results hold
for any interpretation of those operations.  External capabilities (the
trained model's `predict`, the fitted scaler, the HTTP transport, the
OpenAI client) are injected as function parameters, exceptions being
modelled by `Option`/`Except`.
-/

namespace RainPro

/-- `round(x, n)` of Python, modelled as rounding to `n` decimal digits
(half away from zero is irrelevant here; we use floor of `x·10ⁿ + 1/2`). -/
def roundQ (n : ℕ) (x : ℚ) : ℚ := (⌊x * 10 ^ n + 1 / 2⌋ : ℤ) / 10 ^ n

/-- python `str.lower()` (over the ASCII range used by the agents). -/
def lowerAscii (s : String) : String := ⟨s.data.map Char.toLower⟩

/-- pandas `DataFrame.tail(n)` / python `iloc[-n:]`: the last `n` elements
(the whole list when it is shorter than `n`). -/
def tailN (n : ℕ) (xs : List α) : List α := xs.drop (xs.length - n)

/-- python `xs.iloc[-k]` on a numeric column (defaulting to 0; callers only
use it with `k ≤ xs.length`, where the default cannot fire). -/
def ilast (xs : List ℚ) (k : ℕ) : ℚ := xs.getD (xs.length - k) 0

/-- `np.mean` over a rational list. -/
def qmean (xs : List ℚ) : ℚ := xs.sum / xs.length

/-- population variance, the radicand of `np.std`. -/
def qvarPop (xs : List ℚ) : ℚ :=
  ((xs.map (fun x => (x - qmean xs) ^ 2)).sum) / xs.length

/-- sample variance (`ddof = 1`), the radicand of pandas `Series.std`. -/
def qvarSamp (xs : List ℚ) : ℚ :=
  ((xs.map (fun x => (x - qmean xs) ^ 2)).sum) / (xs.length - 1 : ℚ)

/-! ## The feature window

`preprocessing_agent` builds a window whose columns are, in order, the 11
`log_<feature>` covariates, the three lags `log_PRECTOTCORR_lag{1,3,7}`,
`rain_rolling_mean`, `rain_rolling_std`, and the transformed target
`log_PRECTOTCORR` last.  A window row is embedded as: -/

structure FRow where
  covs : List ℚ
  lag1 : ℚ
  lag3 : ℚ
  lag7 : ℚ
  rollMean : ℚ
  rollStd : ℚ
  logPrec : ℚ
  deriving Repr, DecidableEq

/-- the row in the scaler's fixed column order (target column last). -/
def FRow.toVec (r : FRow) : List ℚ :=
  r.covs ++ [r.lag1, r.lag3, r.lag7, r.rollMean, r.rollStd, r.logPrec]

/-- The fitted scaler artifact: column-wise `transform` / `inverse_transform`,
which may raise (modelled by `none`, e.g. on a shape mismatch). -/
structure Scaler where
  transform : List FRow → Option (List (List ℚ))
  inverse_transform : List (List ℚ) → Option (List (List ℚ))

/-- `temp[0, -1] = pred` on a 1×n array: overwrite the last entry. -/
def setLast (xs : List ℚ) (v : ℚ) : List ℚ := xs.take (xs.length - 1) ++ [v]

/-- `inverse_transform_prediction` (prediction_agent.py lines 59-76): place
the scaled prediction into the last column of a copy of the last scaled
row, inverse-transform, read the last column back, `expm1`, clip at 0.
Any exception along the way is caught and yields `0.0`. -/
def inverse_transform_prediction (expm1Q : ℚ → ℚ) (pred_scaled : ℚ)
    (scaler : Scaler) (last_row_scaled : List ℚ) : ℚ :=
  if last_row_scaled.isEmpty then 0
  else
    match scaler.inverse_transform [setLast last_row_scaled pred_scaled] with
    | none => 0
    | some temp_inv =>
      match temp_inv.head? with
      | none => 0
      | some row =>
        match row.getLast? with
        | none => 0
        | some pred_log => max 0 (expm1Q pred_log)

/-- forecast mode, from `intent["mode"]`. -/
inductive Mode where
  | daily
  | monthly
  deriving Repr, DecidableEq

/-- window length kept by the loop's `.tail(...)`: 15 daily, 7 monthly. -/
def Mode.windowSize : Mode → ℕ
  | .daily => 15
  | .monthly => 7

/-- how many trailing history points enter the rolling statistics inside the
loop: `iloc[-6:]` daily, `iloc[-2:]` monthly. -/
def Mode.rollSpan : Mode → ℕ
  | .daily => 6
  | .monthly => 2

/-- One forecast entry: `{"day": k, "predicted_rainfall_mm": ...}` (daily) or
`{"month_ahead": k, "predicted_rainfall_mm": ...}` (monthly). -/
structure ForecastEntry where
  index : ℕ
  predicted_rainfall_mm : ℚ
  deriving Repr, DecidableEq

/-- Build the synthesised next row of the autoregressive loop
(prediction_agent.py lines 162-184 / 245-264): covariates copied from the
last row, lags read from the target column history (with the short-window
fallbacks of the source), rolling mean/std over the trailing
`rollSpan` points plus `log1p(rainfall_mm)`, target set to
`log1p(rainfall_mm)`. -/
def mkNewRow (log1pQ sqrtQ : ℚ → ℚ) (mode : Mode) (window : List FRow)
    (rainfall_mm : ℚ) : FRow :=
  let tcol := window.map FRow.logPrec
  let covs := match window.getLast? with
    | some r => r.covs
    | none => []
  let lag1 := ilast tcol 1
  let lag3 := if 3 ≤ window.length then ilast tcol 3 else lag1
  let lag7 := if 7 ≤ window.length then ilast tcol 7 else lag1
  let roll := tailN mode.rollSpan tcol ++ [log1pQ rainfall_mm]
  { covs := covs, lag1 := lag1, lag3 := lag3, lag7 := lag7,
    rollMean := qmean roll, rollStd := sqrtQ (qvarPop roll),
    logPrec := log1pQ rainfall_mm }

/-- Mutable state carried across loop iterations: the local window copy,
`last_row_scaled`, and `X_input`. -/
structure LoopState where
  window : List FRow
  lastRowScaled : List ℚ
  xInput : List (List ℚ)
  deriving Repr

/-- One iteration of the autoregressive loop (prediction_agent.py lines
148-195 / 231-273), for step number `k`.  `predict` is the loaded model's
inference call, indexed by the step number to model per-call failure
(the `try/except` sets `pred_scaled = 0.0` on an exception).  The re-scaling
at the bottom of the loop keeps the previous `last_row_scaled`/`X_input`
when the scaler raises. -/
def forecastStep (expm1Q log1pQ sqrtQ : ℚ → ℚ) (mode : Mode) (scaler : Scaler)
    (predict : ℕ → List (List ℚ) → Option ℚ) (k : ℕ) (s : LoopState) :
    LoopState × ForecastEntry :=
  let pred_scaled : ℚ := (predict k s.xInput).getD 0
  let rainfall_mm :=
    inverse_transform_prediction expm1Q pred_scaled scaler s.lastRowScaled
  let entry : ForecastEntry :=
    { index := k, predicted_rainfall_mm := roundQ 3 rainfall_mm }
  let newRow := mkNewRow log1pQ sqrtQ mode s.window rainfall_mm
  let window' := tailN mode.windowSize (s.window ++ [newRow])
  let upd : List ℚ × List (List ℚ) :=
    match scaler.transform window' with
    | some sc =>
      match sc.getLast? with
      | some r => (r, [r])
      | none => (s.lastRowScaled, s.xInput)
    | none => (s.lastRowScaled, s.xInput)
  ({ window := window', lastRowScaled := upd.1, xInput := upd.2 }, entry)

/-- Run `remaining` iterations starting at step number `k`, collecting the
emitted forecast entries and the final loop state. -/
def forecastAux (expm1Q log1pQ sqrtQ : ℚ → ℚ) (mode : Mode) (scaler : Scaler)
    (predict : ℕ → List (List ℚ) → Option ℚ) (k : ℕ) (remaining : ℕ)
    (s : LoopState) : List ForecastEntry × LoopState :=
  match remaining with
  | 0 => ([], s)
  | r + 1 =>
    let (s', e) := forecastStep expm1Q log1pQ sqrtQ mode scaler predict k s
    let (es, sfin) := forecastAux expm1Q log1pQ sqrtQ mode scaler predict
      (k + 1) r s'
    (e :: es, sfin)

/-- The forecasting core of `model_prediction_agent` after the artifacts are
loaded (prediction_agent.py lines 138-201 / 224-279): initialise
`last_row_scaled` from the last row of the preprocessed `scaled` matrix,
`X_input` from the state, and run the loop `for k in range(1, horizon+1)`. -/
def model_prediction_run (expm1Q log1pQ sqrtQ : ℚ → ℚ) (mode : Mode)
    (scaler : Scaler) (predict : ℕ → List (List ℚ) → Option ℚ)
    (window : List FRow) (scaled xInput0 : List (List ℚ)) (horizon : ℕ) :
    List ForecastEntry :=
  (forecastAux expm1Q log1pQ sqrtQ mode scaler predict 1 horizon
    { window := window, lastRowScaled := (scaled.getLast?).getD [],
      xInput := xInput0 }).1

/-! ## Basic lemmas about the forecaster -/

lemma inverse_transform_prediction_nonneg (expm1Q : ℚ → ℚ) (p : ℚ)
    (scaler : Scaler) (row : List ℚ) :
    0 ≤ inverse_transform_prediction expm1Q p scaler row := by
  unfold inverse_transform_prediction
  split
  · exact le_refl 0
  · split
    · exact le_refl 0
    · split
      · exact le_refl 0
      · split
        · exact le_refl 0
        · exact le_max_left 0 _

lemma roundQ_nonneg (n : ℕ) (x : ℚ) (hx : 0 ≤ x) : 0 ≤ roundQ n x := by
  unfold roundQ
  apply div_nonneg _ (by positivity)
  have : (0 : ℤ) ≤ ⌊x * 10 ^ n + 1 / 2⌋ := by
    apply Int.floor_nonneg.mpr
    positivity
  exact_mod_cast this

lemma forecastStep_entry (expm1Q log1pQ sqrtQ : ℚ → ℚ) (mode : Mode)
    (scaler : Scaler) (predict : ℕ → List (List ℚ) → Option ℚ) (k : ℕ)
    (s : LoopState) :
    (forecastStep expm1Q log1pQ sqrtQ mode scaler predict k s).2 =
      { index := k,
        predicted_rainfall_mm := roundQ 3 (inverse_transform_prediction expm1Q
          ((predict k s.xInput).getD 0) scaler s.lastRowScaled) } := rfl

lemma forecastStep_window (expm1Q log1pQ sqrtQ : ℚ → ℚ) (mode : Mode)
    (scaler : Scaler) (predict : ℕ → List (List ℚ) → Option ℚ) (k : ℕ)
    (s : LoopState) :
    (forecastStep expm1Q log1pQ sqrtQ mode scaler predict k s).1.window =
      tailN mode.windowSize (s.window ++
        [mkNewRow log1pQ sqrtQ mode s.window
          (inverse_transform_prediction expm1Q ((predict k s.xInput).getD 0)
            scaler s.lastRowScaled)]) := rfl

lemma forecastAux_length (expm1Q log1pQ sqrtQ : ℚ → ℚ) (mode : Mode)
    (scaler : Scaler) (predict : ℕ → List (List ℚ) → Option ℚ) (k r : ℕ)
    (s : LoopState) :
    (forecastAux expm1Q log1pQ sqrtQ mode scaler predict k r s).1.length = r := by
  induction r generalizing k s with
  | zero => rfl
  | succ r ih =>
    simp only [forecastAux, List.length_cons]
    rw [ih]

lemma forecastAux_nonneg (expm1Q log1pQ sqrtQ : ℚ → ℚ) (mode : Mode)
    (scaler : Scaler) (predict : ℕ → List (List ℚ) → Option ℚ) (k r : ℕ)
    (s : LoopState) :
    ∀ e ∈ (forecastAux expm1Q log1pQ sqrtQ mode scaler predict k r s).1,
      0 ≤ e.predicted_rainfall_mm := by
  induction r generalizing k s with
  | zero => intro e he; simp [forecastAux] at he
  | succ r ih =>
    intro e he
    simp only [forecastAux, List.mem_cons] at he
    rcases he with he | he
    · subst he
      rw [forecastStep_entry]
      exact roundQ_nonneg 3 _ (inverse_transform_prediction_nonneg _ _ _ _)
    · exact ih (k + 1) _ e he

lemma mode_windowSize_pos (mode : Mode) : 0 < mode.windowSize := by
  cases mode <;> decide

lemma tailN_snoc_of_length {α : Type _} (N : ℕ) (hN : 0 < N) (w : List α)
    (hw : w.length = N) (r : α) :
    tailN N (w ++ [r]) = w.drop 1 ++ [r] := by
  unfold tailN
  have h1 : (w ++ [r]).length - N = 1 := by
    simp [List.length_append, hw]
  rw [h1, List.drop_append_of_le_length (by omega)]

lemma forecastStep_window_length (expm1Q log1pQ sqrtQ : ℚ → ℚ) (mode : Mode)
    (scaler : Scaler) (predict : ℕ → List (List ℚ) → Option ℚ) (k : ℕ)
    (s : LoopState) (hs : s.window.length = mode.windowSize) :
    (forecastStep expm1Q log1pQ sqrtQ mode scaler predict k s).1.window.length
      = mode.windowSize := by
  rw [forecastStep_window,
    tailN_snoc_of_length mode.windowSize (mode_windowSize_pos mode) _ hs]
  have := mode_windowSize_pos mode
  simp [List.length_append, List.length_drop, hs]
  omega

lemma forecastAux_final_window_length (expm1Q log1pQ sqrtQ : ℚ → ℚ)
    (mode : Mode) (scaler : Scaler)
    (predict : ℕ → List (List ℚ) → Option ℚ) (k r : ℕ) (s : LoopState)
    (hs : s.window.length = mode.windowSize) :
    (forecastAux expm1Q log1pQ sqrtQ mode scaler predict k r s).2.window.length
      = mode.windowSize := by
  induction r generalizing k s with
  | zero => exact hs
  | succ r ih =>
    simp only [forecastAux]
    exact ih (k + 1) _
      (forecastStep_window_length expm1Q log1pQ sqrtQ mode scaler predict k s hs)

/-! ## Claims about the forecaster -/

/-- C1: for every feature window of the minimum required length
(`Mode.windowSize`: 15 daily, 7 monthly) and every horizon `h ≥ 1`, the
autoregressive loop of `model_prediction_agent` returns exactly `h`
forecast steps, and every step's predicted rainfall value is `≥ 0`. -/
theorem forecast_length_and_nonneg (expm1Q log1pQ sqrtQ : ℚ → ℚ) (mode : Mode)
    (scaler : Scaler) (predict : ℕ → List (List ℚ) → Option ℚ)
    (window : List FRow) (scaled xInput0 : List (List ℚ)) (h : ℕ)
    (hh : 1 ≤ h) (hw : window.length = mode.windowSize) :
    (model_prediction_run expm1Q log1pQ sqrtQ mode scaler predict window
        scaled xInput0 h).length = h ∧
    ∀ e ∈ model_prediction_run expm1Q log1pQ sqrtQ mode scaler predict window
        scaled xInput0 h, 0 ≤ e.predicted_rainfall_mm := by
  constructor
  · exact forecastAux_length _ _ _ _ _ _ _ _ _
  · exact forecastAux_nonneg _ _ _ _ _ _ _ _ _

/-- Witness for C1 at a concrete input: a 15-row daily window, horizon 3,
with a predictor that always fails and a scaler that always raises. -/
theorem forecast_length_and_nonneg_witness :
    (model_prediction_run id id id Mode.daily
        ⟨fun _ => none, fun _ => none⟩ (fun _ _ => none)
        (List.replicate 15 ⟨[], 0, 0, 0, 0, 0, 0⟩) [] [] 3).length = 3 ∧
    ∀ e ∈ model_prediction_run id id id Mode.daily
        ⟨fun _ => none, fun _ => none⟩ (fun _ _ => none)
        (List.replicate 15 ⟨[], 0, 0, 0, 0, 0, 0⟩) [] [] 3,
      0 ≤ e.predicted_rainfall_mm :=
  forecast_length_and_nonneg id id id Mode.daily
    ⟨fun _ => none, fun _ => none⟩ (fun _ _ => none)
    (List.replicate 15 ⟨[], 0, 0, 0, 0, 0, 0⟩) [] [] 3
    (by decide) (by simp [Mode.windowSize])

/-- C2: replacing the injected predictor by one that never fails and returns
`0` exactly where the original failed leaves the produced forecast
sequence unchanged — a failing `predict` call on one step is treated as a
scaled prediction of `0` and the loop continues; it never aborts or
shortens the sequence, whose length is always the full horizon. -/
theorem forecast_predict_failure_degrades_to_zero (expm1Q log1pQ sqrtQ : ℚ → ℚ)
    (mode : Mode) (scaler : Scaler)
    (predict : ℕ → List (List ℚ) → Option ℚ)
    (window : List FRow) (scaled xInput0 : List (List ℚ)) (h : ℕ) :
    model_prediction_run expm1Q log1pQ sqrtQ mode scaler predict window
        scaled xInput0 h =
      model_prediction_run expm1Q log1pQ sqrtQ mode scaler
        (fun k x => some ((predict k x).getD 0)) window scaled xInput0 h ∧
    (model_prediction_run expm1Q log1pQ sqrtQ mode scaler predict window
        scaled xInput0 h).length = h := by
  constructor
  · unfold model_prediction_run
    have key : ∀ r k s,
        forecastAux expm1Q log1pQ sqrtQ mode scaler predict k r s =
        forecastAux expm1Q log1pQ sqrtQ mode scaler
          (fun k x => some ((predict k x).getD 0)) k r s := by
      intro r
      induction r with
      | zero => intro k s; rfl
      | succ r ih =>
        intro k s
        simp only [forecastAux]
        have hstep : forecastStep expm1Q log1pQ sqrtQ mode scaler predict k s =
            forecastStep expm1Q log1pQ sqrtQ mode scaler
              (fun k x => some ((predict k x).getD 0)) k s := by
          unfold forecastStep
          simp only [Option.getD_some]
        rw [hstep, ih]
    rw [key]
  · exact forecastAux_length _ _ _ _ _ _ _ _ _

/-- C3: if the loop's current window has exactly `N = Mode.windowSize` rows
(15 daily, 7 monthly), then after one iteration the window is the old
window with its oldest row dropped and the synthesised row appended —
still exactly `N` rows — and after any number of further iterations the
window still has exactly `N` rows. -/
theorem forecast_window_invariant (expm1Q log1pQ sqrtQ : ℚ → ℚ) (mode : Mode)
    (scaler : Scaler) (predict : ℕ → List (List ℚ) → Option ℚ) (k : ℕ)
    (s : LoopState) (hs : s.window.length = mode.windowSize) :
    (forecastStep expm1Q log1pQ sqrtQ mode scaler predict k s).1.window =
      s.window.drop 1 ++
        [mkNewRow log1pQ sqrtQ mode s.window
          (inverse_transform_prediction expm1Q ((predict k s.xInput).getD 0)
            scaler s.lastRowScaled)] ∧
    (forecastStep expm1Q log1pQ sqrtQ mode scaler predict k s).1.window.length
      = mode.windowSize ∧
    ∀ r, (forecastAux expm1Q log1pQ sqrtQ mode scaler predict k r
      s).2.window.length = mode.windowSize := by
  refine ⟨?_, forecastStep_window_length _ _ _ _ _ _ _ _ hs,
    fun r => forecastAux_final_window_length _ _ _ _ _ _ _ _ _ hs⟩
  rw [forecastStep_window,
    tailN_snoc_of_length mode.windowSize (mode_windowSize_pos mode) _ hs]

/-- Witness for C3 at a concrete input: a 7-row monthly window. -/
theorem forecast_window_invariant_witness :
    (forecastStep id id id Mode.monthly ⟨fun _ => none, fun _ => none⟩
        (fun _ _ => some 1) 1
        ⟨List.replicate 7 ⟨[], 0, 0, 0, 0, 0, 0⟩, [], []⟩).1.window =
      (List.replicate 7 (⟨[], 0, 0, 0, 0, 0, 0⟩ : FRow)).drop 1 ++
        [mkNewRow id id Mode.monthly
          (List.replicate 7 ⟨[], 0, 0, 0, 0, 0, 0⟩)
          (inverse_transform_prediction id
            ((some (1 : ℚ)).getD 0) ⟨fun _ => none, fun _ => none⟩ [])] ∧
    (forecastStep id id id Mode.monthly ⟨fun _ => none, fun _ => none⟩
        (fun _ _ => some 1) 1
        ⟨List.replicate 7 ⟨[], 0, 0, 0, 0, 0, 0⟩, [], []⟩).1.window.length = 7 ∧
    ∀ r, (forecastAux id id id Mode.monthly ⟨fun _ => none, fun _ => none⟩
        (fun _ _ => some 1) 1 r
        ⟨List.replicate 7 ⟨[], 0, 0, 0, 0, 0, 0⟩, [], []⟩).2.window.length = 7 :=
  forecast_window_invariant id id id Mode.monthly
    ⟨fun _ => none, fun _ => none⟩ (fun _ _ => some 1) 1
    ⟨List.replicate 7 ⟨[], 0, 0, 0, 0, 0, 0⟩, [], []⟩
    (by simp [Mode.windowSize])

/-! ## The forecast publisher (agents/forecast_publisher_agent.py)

`datetime.now()` is injected as a clock: for the daily path a day number
`today : ℕ` whose weekday is `today % 7` with Monday = 0 (Python
`datetime.weekday`), for the monthly path the pair `(year, month)` of the
current date.  The HTTP transport is injected as `transport : ℕ →
PostOutcome`, indexed by the attempt number; `requests.post` raising
(timeout, connection error) is `.exn`, an application response is
`.resp status_code`. -/

/-- one forecast dict as consumed by the publisher. -/
structure PubForecast where
  predicted_rainfall_mm : ℚ
  deriving Repr, DecidableEq

/-- a daily payload entry `{"date": ..., "rainfall": ...}`, the date as an
absolute day number. -/
structure DailyEntry where
  date : ℕ
  rainfall : ℚ
  deriving Repr, DecidableEq

/-- a monthly payload entry `{"date": "YYYY-MM-01", "rainfall": ...}`. -/
structure MonthlyEntry where
  year : ℕ
  month : ℕ
  rainfall : ℚ
  deriving Repr, DecidableEq

/-- `days_until_sunday = (6 - today.weekday()) % 7`, bumped to 7 when it is
0 (today already Sunday): lines 37-39. -/
def daysUntilSunday (today : ℕ) : ℕ :=
  let d := (6 - today % 7) % 7
  if d = 0 then 7 else d

/-- the `for i, forecast in enumerate(forecasts[:7])` loop body
(lines 44-49), carrying the running index `i`. -/
def dailyRows (start : ℕ) : ℕ → List PubForecast → List DailyEntry
  | _, [] => []
  | i, f :: rest =>
    { date := start + i, rainfall := roundQ 2 f.predicted_rainfall_mm } ::
      dailyRows start (i + 1) rest

/-- the mapped part of the daily payload: `forecasts[:7]` laid onto
consecutive dates from `start_date`, rainfall rounded to 2 digits
(lines 43-49). -/
def dailyBucketInit (start : ℕ) (fs : List PubForecast) : List DailyEntry :=
  dailyRows start 0 (fs.take 7)

/-- the `while len(forecast_data) < 7` padding loop (lines 52-61), written
with structural fuel; fuel 7 covers every reachable input (the initial
list has at most 7 entries and each pass appends exactly one). -/
def padDaily : ℕ → ℕ → List DailyEntry → List DailyEntry
  | 0, _, acc => acc
  | fuel + 1, start, acc =>
    if acc.length < 7 then
      let nd := match acc.getLast? with
        | some e => e.date + 1
        | none => start
      padDaily fuel start (acc ++ [{ date := nd, rainfall := 0 }])
    else acc

/-- the daily payload (`forecast_data`) as posted to `/daily_forecast`. -/
def dailyBucket (today : ℕ) (fs : List PubForecast) : List DailyEntry :=
  let start := today + daysUntilSunday today
  padDaily 7 start (dailyBucketInit start fs)

/-- the mapped part of the monthly payload: `forecasts[:3]` onto the first
day of the current month plus offsets, with the source's arithmetic
`year = today.year + (today.month + i - 1) // 12`,
`month = (today.month + i - 1) % 12 + 1` (lines 86-95). -/
def monthlyRows (y m : ℕ) : ℕ → List PubForecast → List MonthlyEntry
  | _, [] => []
  | i, f :: rest =>
    { year := y + (m + i - 1) / 12, month := (m + i - 1) % 12 + 1,
      rainfall := roundQ 2 f.predicted_rainfall_mm } ::
      monthlyRows y m (i + 1) rest

def monthlyBucketInit (y m : ℕ) (fs : List PubForecast) : List MonthlyEntry :=
  monthlyRows y m 0 (fs.take 3)

/-- the `while len(forecast_data) < 3` padding loop (lines 98-110), with
structural fuel 3 (the initial list has at most 3 entries). -/
def padMonthly : ℕ → ℕ → ℕ → List MonthlyEntry → List MonthlyEntry
  | 0, _, _, acc => acc
  | fuel + 1, y, m, acc =>
    if acc.length < 3 then
      let nd := match acc.getLast? with
        | some e => if e.month = 12 then (e.year + 1, 1) else (e.year, e.month + 1)
        | none => (y, m)
      padMonthly fuel y m (acc ++ [{ year := nd.1, month := nd.2, rainfall := 0 }])
    else acc

/-- the monthly payload (`forecast_data`) as posted to `/monthly_forecast`. -/
def monthlyBucket (y m : ℕ) (fs : List PubForecast) : List MonthlyEntry :=
  padMonthly 3 y m (monthlyBucketInit y m fs)

/-- outcome of one `requests.post` call. -/
inductive PostOutcome where
  | exn
  | resp (code : ℕ)
  deriving Repr, DecidableEq

/-- the slice of workflow state read and written by the publisher. -/
structure PubState where
  intentMode : Option String
  forecasts : Option (List PubForecast)
  monthly_forecasts : Option (List PubForecast)
  forecast_published : Option Bool
  deriving Repr, DecidableEq

/-- a posted payload: either the daily or the monthly `forecast_data`. -/
abbrev Payload := List DailyEntry ⊕ List MonthlyEntry

/-- `forecast_publisher_agent` (forecast_publisher_agent.py lines 18-134):
pick the forecast list for the detected mode, return the state untouched
when it is missing or empty, otherwise build the calendar-bucketed payload
and post it once; a 200/201 response sets `forecast_published = True`, any
other response or a transport exception sets it `False`.  The second
component of the result is the log of `requests.post` calls made (attempt
number, payload). -/
def forecast_publisher_agent (transport : ℕ → Payload → PostOutcome)
    (todayDay todayY todayM : ℕ) (st : PubState) :
    PubState × List (ℕ × Payload) :=
  let mode := lowerAscii (st.intentMode.getD "daily")
  let fcs := if mode = "daily" then st.forecasts else st.monthly_forecasts
  match fcs with
  | none => (st, [])
  | some [] => (st, [])
  | some fs =>
    if mode = "daily" then
      let payload : Payload := Sum.inl (dailyBucket todayDay fs)
      match transport 0 payload with
      | .exn => ({ st with forecast_published := some false }, [(0, payload)])
      | .resp c =>
        ({ st with forecast_published := some (c == 200 || c == 201) },
          [(0, payload)])
    else if mode = "monthly" then
      let payload : Payload := Sum.inr (monthlyBucket todayY todayM fs)
      match transport 0 payload with
      | .exn => ({ st with forecast_published := some false }, [(0, payload)])
      | .resp c =>
        ({ st with forecast_published := some (c == 200 || c == 201) },
          [(0, payload)])
    else (st, [])

/-! ## Claims about the publisher's bucketing -/

/-- C5: for a forecast sequence of length 3, the published daily bucket has
exactly 7 entries, entries 4-7 have rainfall `0.0`, the 7 dates are
consecutive calendar days, and any sequence is truncated to its first 7
entries. -/
theorem daily_bucket_shape (today : ℕ) (fs : List PubForecast)
    (h3 : fs.length = 3) :
    (dailyBucket today fs).length = 7 ∧
    (∀ e ∈ (dailyBucket today fs).drop 3, e.rainfall = 0) ∧
    (dailyBucket today fs).Chain' (fun a b => b.date = a.date + 1) ∧
    (∀ gs : List PubForecast, dailyBucket today gs =
      dailyBucket today (gs.take 7)) := by
  obtain ⟨a, b, c, rfl⟩ := List.length_eq_three.mp h3
  refine ⟨?_, ?_, ?_, ?_⟩
  · simp [dailyBucket, dailyBucketInit, dailyRows, padDaily]
  · simp [dailyBucket, dailyBucketInit, dailyRows, padDaily]
  · simp [dailyBucket, dailyBucketInit, dailyRows, padDaily, List.chain'_cons]
  · intro gs
    simp [dailyBucket, dailyBucketInit, List.take_take]

/-- Witness for C5 at a concrete input. -/
theorem daily_bucket_shape_witness :
    (dailyBucket 0 [⟨1⟩, ⟨2⟩, ⟨3⟩]).length = 7 ∧
    (∀ e ∈ (dailyBucket 0 [⟨1⟩, ⟨2⟩, ⟨3⟩]).drop 3, e.rainfall = 0) ∧
    (dailyBucket 0 [⟨1⟩, ⟨2⟩, ⟨3⟩]).Chain' (fun a b => b.date = a.date + 1) ∧
    (∀ gs : List PubForecast, dailyBucket 0 gs = dailyBucket 0 (gs.take 7)) :=
  daily_bucket_shape 0 [⟨1⟩, ⟨2⟩, ⟨3⟩] (by decide)

/-- `Modelled from the spec:` "the first day of the current calendar month
plus month offsets, with the year incremented when the month rolls past
December" — advancing `(year, month)` by one calendar month. -/
def specNextMonth (p : ℕ × ℕ) : ℕ × ℕ :=
  if p.2 = 12 then (p.1 + 1, 1) else (p.1, p.2 + 1)

/-- C6: for any nonempty forecast sequence and a current date in month
`m ∈ [1, 12]` of year `y`, the three dates of the monthly bucket are the
first day of the current month plus month offsets 0, 1, 2 (year
incremented past December); in particular November yields November,
December, January-of-next-year (see the witness). -/
theorem monthly_bucket_dates (y m : ℕ) (fs : List PubForecast)
    (hm1 : 1 ≤ m) (hm2 : m ≤ 12) (hfs : fs ≠ []) :
    (monthlyBucket y m fs).map (fun e => (e.year, e.month)) =
      [(y, m), specNextMonth (y, m), specNextMonth (specNextMonth (y, m))] := by
  rcases fs with _ | ⟨a, rest⟩
  · exact absurd rfl hfs
  rcases rest with _ | ⟨b, rest2⟩
  · interval_cases m <;>
      simp [monthlyBucket, monthlyBucketInit, monthlyRows, padMonthly,
        specNextMonth]
  rcases rest2 with _ | ⟨c, rest3⟩
  · interval_cases m <;>
      simp [monthlyBucket, monthlyBucketInit, monthlyRows, padMonthly,
        specNextMonth]
  · interval_cases m <;>
      simp [monthlyBucket, monthlyBucketInit, monthlyRows, padMonthly,
        specNextMonth]

/-- Witness for C6 at the claim's own instance: starting in November 2025
the bucket dates are November 2025, December 2025, January 2026. -/
theorem monthly_bucket_dates_witness :
    (monthlyBucket 2025 11 [⟨5⟩]).map (fun e => (e.year, e.month)) =
      [(2025, 11), specNextMonth (2025, 11),
        specNextMonth (specNextMonth (2025, 11))] ∧
    (monthlyBucket 2025 11 [⟨5⟩]).map (fun e => (e.year, e.month)) =
      [(2025, 11), (2025, 12), (2026, 1)] :=
  ⟨monthly_bucket_dates 2025 11 [⟨5⟩] (by decide) (by decide) (by decide),
    by decide⟩

/-! ## Claims about the publisher agent -/

/-- C10 (frame effect): when the workflow state has no forecast list for the
detected mode (missing or empty), `forecast_publisher_agent` returns the
state unchanged and makes no publish request. -/
theorem publisher_skips_without_forecasts (transport : ℕ → Payload → PostOutcome)
    (d y m : ℕ) (st : PubState)
    (h : ∀ fs, (if lowerAscii (st.intentMode.getD "daily") = "daily" then
        st.forecasts else st.monthly_forecasts) = some fs → fs = []) :
    forecast_publisher_agent transport d y m st = (st, []) := by
  unfold forecast_publisher_agent
  cases hf : (if lowerAscii (st.intentMode.getD "daily") = "daily" then
      st.forecasts else st.monthly_forecasts) with
  | none => simp [hf]
  | some fs =>
    have := h fs hf
    subst this
    simp [hf]

/-- Witness for C10: a daily-mode state whose forecast list is absent. -/
theorem publisher_skips_without_forecasts_witness :
    forecast_publisher_agent (fun _ _ => PostOutcome.resp 200) 0 2025 1
      ⟨some "daily", none, some [⟨1⟩], none⟩ =
      (⟨some "daily", none, some [⟨1⟩], none⟩, []) :=
  publisher_skips_without_forecasts _ 0 2025 1 _ (by decide)

/-- C8 (amended): the publisher makes exactly ONE `requests.post` attempt
per publish — there is no retry loop.  A transport-level failure (timeout,
connection error) on that single attempt immediately sets
`forecast_published = False`, and a non-2xx application response likewise
sets it `False` (only 200/201 count as success); in neither case is
another attempt made. -/
theorem publisher_single_attempt (transport : ℕ → Payload → PostOutcome)
    (d y m : ℕ) (st : PubState) (fs : List PubForecast) (hne : fs ≠ []) :
    ((lowerAscii (st.intentMode.getD "daily") = "daily" →
      st.forecasts = some fs →
        (forecast_publisher_agent transport d y m st).2 =
          [(0, Sum.inl (dailyBucket d fs))] ∧
        (forecast_publisher_agent transport d y m st).1.forecast_published =
          some (match transport 0 (Sum.inl (dailyBucket d fs)) with
            | .exn => false
            | .resp c => c == 200 || c == 201))) ∧
    ((lowerAscii (st.intentMode.getD "daily") = "monthly" →
      st.monthly_forecasts = some fs →
        (forecast_publisher_agent transport d y m st).2 =
          [(0, Sum.inr (monthlyBucket y m fs))] ∧
        (forecast_publisher_agent transport d y m st).1.forecast_published =
          some (match transport 0 (Sum.inr (monthlyBucket y m fs)) with
            | .exn => false
            | .resp c => c == 200 || c == 201))) := by
  constructor
  · intro hmode hfs
    rcases fs with _ | ⟨f, rest⟩
    · exact absurd rfl hne
    unfold forecast_publisher_agent
    rw [hmode]
    simp only [if_pos rfl, hfs]
    cases htr : transport 0 (Sum.inl (dailyBucket d (f :: rest))) with
    | exn => simp [htr]
    | resp c => simp [htr]
  · intro hmode hfs
    rcases fs with _ | ⟨f, rest⟩
    · exact absurd rfl hne
    unfold forecast_publisher_agent
    rw [hmode]
    have hne' : ("monthly" : String) ≠ "daily" := by decide
    simp only [if_neg hne', hfs, if_pos rfl]
    cases htr : transport 0 (Sum.inr (monthlyBucket y m (f :: rest))) with
    | exn => simp [htr]
    | resp c => simp [htr]

/-- Witness for C8's amended theorem: a daily-mode state with one forecast
and a transport returning a 500 response. -/
theorem publisher_single_attempt_witness :
    ((((⟨some "daily", some [⟨2⟩], none, none⟩ :
        PubState).intentMode.getD "daily") = "daily" →
      (⟨some "daily", some [⟨2⟩], none, none⟩ : PubState).forecasts =
        some [⟨2⟩] →
        (forecast_publisher_agent (fun _ _ => PostOutcome.resp 500) 0 2025 1
          ⟨some "daily", some [⟨2⟩], none, none⟩).2 =
          [(0, Sum.inl (dailyBucket 0 [⟨2⟩]))] ∧
        (forecast_publisher_agent (fun _ _ => PostOutcome.resp 500) 0 2025 1
          ⟨some "daily", some [⟨2⟩], none, none⟩).1.forecast_published =
          some (match (fun (_ : ℕ) (_ : Payload) => PostOutcome.resp 500) 0
              (Sum.inl (dailyBucket 0 [⟨2⟩])) with
            | .exn => false
            | .resp c => c == 200 || c == 201))) ∧
    ((((⟨some "daily", some [⟨2⟩], none, none⟩ :
        PubState).intentMode.getD "daily") = "monthly" →
      (⟨some "daily", some [⟨2⟩], none, none⟩ : PubState).monthly_forecasts =
        some [⟨2⟩] →
        (forecast_publisher_agent (fun _ _ => PostOutcome.resp 500) 0 2025 1
          ⟨some "daily", some [⟨2⟩], none, none⟩).2 =
          [(0, Sum.inr (monthlyBucket 2025 1 [⟨2⟩]))] ∧
        (forecast_publisher_agent (fun _ _ => PostOutcome.resp 500) 0 2025 1
          ⟨some "daily", some [⟨2⟩], none, none⟩).1.forecast_published =
          some (match (fun (_ : ℕ) (_ : Payload) => PostOutcome.resp 500) 0
              (Sum.inr (monthlyBucket 2025 1 [⟨2⟩])) with
            | .exn => false
            | .resp c => c == 200 || c == 201))) :=
  publisher_single_attempt (fun _ _ => PostOutcome.resp 500) 0 2025 1
    ⟨some "daily", some [⟨2⟩], none, none⟩ [⟨2⟩] (by decide)

/-- Counterexample for C8 as stated: with a transport that fails (raises)
on the first attempt but would succeed with 200 on any later attempt, a
publisher that "retries up to 3 attempts on transport-level failures"
would succeed; the code makes exactly one attempt and reports
`forecast_published = False`. -/
theorem publisher_single_attempt_counterexample :
    (forecast_publisher_agent
        (fun n _ => if n = 0 then PostOutcome.exn else PostOutcome.resp 200)
        0 2025 1 ⟨some "daily", some [⟨2⟩], none, none⟩).1.forecast_published =
      some false ∧
    (forecast_publisher_agent
        (fun n _ => if n = 0 then PostOutcome.exn else PostOutcome.resp 200)
        0 2025 1 ⟨some "daily", some [⟨2⟩], none, none⟩).2.length = 1 := by
  constructor <;> rfl

/-! ## Intent detection (agents/intent_agent.py) and routing
(agents/rainfall_graph.py)

The OpenAI capability boundary is injected: `clientAvailable` models
`client is not None`; `apiCall` is the chat-completions call, `none` when it
raises (error or timeout), `some raw` the stripped text output; `parseJson`
models `json.loads` plus the typed field extraction of lines 123-127,
`none` when any of it raises.  `HTTPException(status_code=...)` is the
`Except.error` case, carrying the status code. -/

/-- the JSON object a successful parse yields; absent keys are `none`
(the source then applies the `.get(..., default)` defaults). -/
structure ParsedIntent where
  mode : Option String
  confidence : Option ℚ
  explanation : Option String

/-- the produced `state["intent"]` record. -/
structure Intent where
  mode : String
  confidence : ℚ
  explanation : String
  deriving Repr, DecidableEq

/-- the slice of workflow state the intent agent and router touch. -/
structure IntentState where
  user_query : Option String
  intent : Option Intent
  error : Option String
  deriving Repr, DecidableEq

/-- python `needle in hay` on strings (substring containment). -/
def containsSub (needle hay : List Char) : Bool :=
  decide (needle <+: hay) ||
    (match hay with
     | [] => false
     | _ :: t => containsSub needle t)

/-- `intent_detection_agent` (intent_agent.py lines 29-160).  Validation:
missing/empty `user_query` raises 400; unavailable client raises 500; a
raised OpenAI call raises 500.  A successful call is parsed; on a parse
failure the keyword fallback fires (`"month"` in the lowercased query ⇒
monthly at confidence 0.7, else daily at confidence 0.6).  A parsed mode
outside {daily, monthly} is coerced to daily at confidence 0.5. -/
def intent_detection_agent (clientAvailable : Bool) (apiCall : Option String)
    (parseJson : String → Option ParsedIntent) (state : IntentState) :
    Except ℕ IntentState :=
  match state.user_query with
  | none => .error 400
  | some q =>
    if q = "" then .error 400
    else if !clientAvailable then .error 500
    else
      match apiCall with
      | none => .error 500
      | some raw =>
        let (mode0, conf0, expl0) :=
          match parseJson raw with
          | some parsed =>
            (lowerAscii (parsed.mode.getD "daily"),
             parsed.confidence.getD (1 / 2),
             parsed.explanation.getD "Model explanation missing.")
          | none =>
            if containsSub "month".data (lowerAscii q).data then
              ("monthly", 7 / 10, "Fallback keyword match: month")
            else
              ("daily", 3 / 5, "Fallback keyword match: daily terms")
        let (mode1, conf1, expl1) :=
          if mode0 = "daily" ∨ mode0 = "monthly" then (mode0, conf0, expl0)
          else ("daily", 1 / 2, "Invalid mode returned - default applied.")
        .ok { state with
          intent := some { mode := mode1, confidence := conf1,
                           explanation := expl1 } }

/-- `route_intent` (rainfall_graph.py lines 31-50): fallback on a recorded
error or a missing mode, else route by the lowercased mode, anything other
than daily/monthly falling back. -/
def route_intent (state : IntentState) : String :=
  let mode := (state.intent.map Intent.mode).getD ""
  if state.error.getD "" ≠ "" ∨ mode = "" then "fallback"
  else if lowerAscii mode = "daily" then "daily_path"
  else if lowerAscii mode = "monthly" then "monthly_path"
  else "fallback"

lemma lowerAscii_daily : lowerAscii "daily" = "daily" := rfl

lemma lowerAscii_monthly : lowerAscii "monthly" = "monthly" := rfl

lemma route_intent_valid (uq : Option String) (i : Intent)
    (hi : i.mode = "daily" ∨ i.mode = "monthly") :
    route_intent ⟨uq, some i, none⟩ ≠ "fallback" := by
  rcases hi with hm | hm <;>
    simp [route_intent, hm, lowerAscii_daily, lowerAscii_monthly]

/-! ## Claims about intent detection -/

/-- Counterexample for C4 as stated: the classifier capability is
unavailable (`client is None`) and the query contains "month"; the claim
says the keyword fallback yields a monthly Intent, but the agent raises
`HTTPException(status_code=500)` and produces no Intent at all. -/
theorem intent_fallback_counterexample :
    intent_detection_agent false (some "irrelevant") (fun _ => none)
      ⟨some "will it rain this month", none, none⟩ = .error 500 := rfl

/-- C4 (amended): the fixed keyword fallback (query containing "month",
case-insensitively, ⇒ monthly at confidence 0.7, else daily at confidence
0.6) is exercised exactly when the capability's output is unparsable; when
the capability is unavailable, or its call errors or times out, the agent
instead raises HTTP 500 and no Intent is produced. -/
theorem intent_keyword_fallback (q raw : String) (api : Option String)
    (pj : String → Option ParsedIntent) (i0 : Option Intent)
    (e0 : Option String) (hq : q ≠ "") (hraw : pj raw = none) :
    (intent_detection_agent true (some raw) pj ⟨some q, i0, e0⟩ =
      .ok ⟨some q,
        some (if containsSub "month".data (lowerAscii q).data
          then ⟨"monthly", 7 / 10, "Fallback keyword match: month"⟩
          else ⟨"daily", 3 / 5, "Fallback keyword match: daily terms"⟩),
        e0⟩) ∧
    (intent_detection_agent false api pj ⟨some q, i0, e0⟩ = .error 500) ∧
    (intent_detection_agent true none pj ⟨some q, i0, e0⟩ = .error 500) := by
  refine ⟨?_, ?_, ?_⟩
  · by_cases hc : containsSub "month".data (lowerAscii q).data = true
    · simp [intent_detection_agent, hq, hraw, hc]
    · simp [intent_detection_agent, hq, hraw, hc]
  · simp [intent_detection_agent, hq]
  · simp [intent_detection_agent, hq]

/-- Witness for C4's amended theorem at a concrete input: a parse failure
on a query without "month". -/
theorem intent_keyword_fallback_witness :
    (intent_detection_agent true (some "garbled") (fun _ => none)
      ⟨some "rain tomorrow", none, none⟩ =
      .ok ⟨some "rain tomorrow",
        some (if containsSub "month".data (lowerAscii "rain tomorrow").data
          then ⟨"monthly", 7 / 10, "Fallback keyword match: month"⟩
          else ⟨"daily", 3 / 5, "Fallback keyword match: daily terms"⟩),
        none⟩) ∧
    (intent_detection_agent false (some "garbled") (fun _ => none)
      ⟨some "rain tomorrow", none, none⟩ = .error 500) ∧
    (intent_detection_agent true none (fun _ => none)
      ⟨some "rain tomorrow", none, none⟩ = .error 500) :=
  intent_keyword_fallback "rain tomorrow" "garbled" (some "garbled")
    (fun _ => none) none none (by decide) rfl

/-- C9: whenever `intent_detection_agent` returns a state (rather than
raising), the produced intent's mode is "daily" or "monthly"; a classified
mode outside that set (e.g. "unrelated") is coerced to "daily" with
confidence 0.5; consequently, on a state without a recorded error,
`route_intent` never routes to "fallback". -/
theorem intent_mode_always_valid (ca : Bool) (api : Option String)
    (pj : String → Option ParsedIntent) (st s' : IntentState)
    (h : intent_detection_agent ca api pj st = .ok s') :
    (∃ i, s'.intent = some i ∧ (i.mode = "daily" ∨ i.mode = "monthly")) ∧
    (∀ raw parsed, api = some raw → pj raw = some parsed →
      lowerAscii (parsed.mode.getD "daily") = "unrelated" →
      s'.intent = some ⟨"daily", 1 / 2,
        "Invalid mode returned - default applied."⟩) ∧
    (st.error = none → route_intent s' ≠ "fallback") := by
  rcases hquery : st.user_query with _ | q
  · simp only [intent_detection_agent, hquery] at h
    exact absurd h (by simp)
  simp only [intent_detection_agent, hquery] at h
  by_cases hq0 : q = ""
  · simp [hq0] at h
  rw [if_neg hq0] at h
  cases ca with
  | false => simp at h
  | true =>
    rw [if_neg (by simp)] at h
    rcases hapi : api with _ | raw
    · simp only [hapi] at h; exact absurd h (by simp)
    simp only [hapi] at h
    rcases hp : pj raw with _ | parsed
    · -- keyword fallback: mode is "monthly" or "daily"
      simp only [hp] at h
      by_cases hc : containsSub "month".data (lowerAscii q).data = true
      · rw [if_pos hc, if_pos (Or.inr rfl)] at h
        cases h
        refine ⟨⟨_, rfl, Or.inr rfl⟩, ?_, ?_⟩
        · intro raw' parsed' hr hpj _
          injection hr with hr
          subst hr
          rw [hp] at hpj
          exact absurd hpj (by simp)
        · intro herr
          rw [herr]
          exact route_intent_valid _ _ (Or.inr rfl)
      · rw [if_neg hc, if_pos (Or.inl rfl)] at h
        cases h
        refine ⟨⟨_, rfl, Or.inl rfl⟩, ?_, ?_⟩
        · intro raw' parsed' hr hpj _
          injection hr with hr
          subst hr
          rw [hp] at hpj
          exact absurd hpj (by simp)
        · intro herr
          rw [herr]
          exact route_intent_valid _ _ (Or.inl rfl)
    · -- parsed: the sanity check coerces invalid modes to "daily"
      simp only [hp] at h
      by_cases hm : lowerAscii (parsed.mode.getD "daily") = "daily" ∨
          lowerAscii (parsed.mode.getD "daily") = "monthly"
      · rw [if_pos hm] at h
        cases h
        refine ⟨⟨_, rfl, hm⟩, ?_, ?_⟩
        · intro raw' parsed' hr hpj hunrel
          injection hr with hr
          subst hr
          rw [hp] at hpj
          injection hpj with hpj
          subst hpj
          rw [hunrel] at hm
          rcases hm with hm | hm <;> exact absurd hm (by decide)
        · intro herr
          rw [herr]
          exact route_intent_valid _ _ hm
      · rw [if_neg hm] at h
        cases h
        refine ⟨⟨_, rfl, Or.inl rfl⟩, ?_, ?_⟩
        · intro raw' parsed' hr hpj hunrel
          rfl
        · intro herr
          rw [herr]
          exact route_intent_valid _ _ (Or.inl rfl)

/-- Witness for C9 at a concrete input: the classifier returns mode
"unrelated", which the agent coerces to a daily intent at confidence 0.5,
and the router does not fall back. -/
theorem intent_mode_always_valid_witness :
    (∃ i, (⟨some "hello",
        some ⟨"daily", 1 / 2, "Invalid mode returned - default applied."⟩,
        none⟩ : IntentState).intent = some i ∧
        (i.mode = "daily" ∨ i.mode = "monthly")) ∧
    (∀ raw parsed, (some "x" : Option String) = some raw →
      (fun _ : String =>
        some (⟨some "unrelated", some 1, none⟩ : ParsedIntent)) raw =
          some parsed →
      lowerAscii (parsed.mode.getD "daily") = "unrelated" →
      (⟨some "hello",
        some ⟨"daily", 1 / 2, "Invalid mode returned - default applied."⟩,
        none⟩ : IntentState).intent = some ⟨"daily", 1 / 2,
          "Invalid mode returned - default applied."⟩) ∧
    ((⟨some "hello", none, none⟩ : IntentState).error = none →
      route_intent ⟨some "hello",
        some ⟨"daily", 1 / 2, "Invalid mode returned - default applied."⟩,
        none⟩ ≠ "fallback") :=
  intent_mode_always_valid true (some "x")
    (fun _ => some ⟨some "unrelated", some 1, none⟩)
    ⟨some "hello", none, none⟩
    ⟨some "hello",
      some ⟨"daily", 1 / 2, "Invalid mode returned - default applied."⟩,
      none⟩
    rfl

/-! ## Feature engineering (agents/preprocessing_agent.py)

The NASA frame is modelled column-wise: the 11 required `FEATURES` columns
(a column absent from the provider frame is `none` and gets materialised as
all zeros), the `PRECTOTCORR` target column, and the row count.  `NaN`
cells inside a column are the `none`s of a `List (Option ℚ)`. -/

structure RawFrame where
  cols : List (Option (List ℚ))
  target : Option (List ℚ)
  nrows : ℕ

/-- `df.replace(-999.0, np.nan)` on one column. -/
def sentinelize (xs : List ℚ) : List (Option ℚ) :=
  xs.map fun x => if x = -999 then none else some x

/-- forward fill carrying the last seen value. -/
def ffillAux : Option ℚ → List (Option ℚ) → List (Option ℚ)
  | _, [] => []
  | last, x :: rest =>
    match x with
    | some v => some v :: ffillAux (some v) rest
    | none => last :: ffillAux last rest

/-- `Series.ffill()`. -/
def ffill (xs : List (Option ℚ)) : List (Option ℚ) := ffillAux none xs

/-- `Series.bfill()`. -/
def bfill (xs : List (Option ℚ)) : List (Option ℚ) :=
  (ffillAux none xs.reverse).reverse

/-- the common cleanup of lines 47-51 applied to one (completed) column. -/
def cleanCol (n : ℕ) (c : Option (List ℚ)) : List (Option ℚ) :=
  bfill (ffill (sentinelize (c.getD (List.replicate n 0))))

/-- `Series.shift(k)`: the first `k` entries become NaN. -/
def shiftK (k : ℕ) (xs : List (Option ℚ)) : List (Option ℚ) :=
  List.replicate k none ++ xs.take (xs.length - k)

/-- `Series.rolling(window=w)` followed by an aggregate `f`: defined (and
NaN-free) at index `i` exactly when the trailing window of `w` cells is
complete and NaN-free (pandas default `min_periods = w`). -/
def rollingApply (w : ℕ) (f : List ℚ → ℚ) (xs : List (Option ℚ)) :
    List (Option ℚ) :=
  (List.range xs.length).map fun i =>
    if w ≤ i + 1 then
      let vals := (xs.take (i + 1)).drop (i + 1 - w)
      if vals.all Option.isSome then some (f (vals.map fun o => o.getD 0))
      else none
    else none

/-- cell `c[i]`, flattening the out-of-range and NaN cases. -/
def colAt (c : List (Option ℚ)) (i : ℕ) : ℚ := ((c.get? i).bind id).getD 0

/-- `df.dropna()` keeps row `i` iff no column is NaN there. -/
def rowKept (cols : List (List (Option ℚ))) (i : ℕ) : Bool :=
  cols.all fun c => ((c.get? i).bind id).isSome

/-- indices of the rows surviving `df.dropna()`. -/
def keptIdx (cols : List (List (Option ℚ))) (n : ℕ) : List ℕ :=
  (List.range n).filter fun i => rowKept cols i

/-- the trailing-window length of the rolling features: 7 daily, 3
monthly (preprocessing_agent.py lines 67-68 and 114-115). -/
def Mode.prepRollWindow : Mode → ℕ
  | .daily => 7
  | .monthly => 3

/-- the `InsufficientDataError` message of each mode (lines 75 and 120). -/
def insufficientMsg : Mode → String
  | .daily => "Not enough data to make daily prediction."
  | .monthly => "Not enough data to compute lag7 for monthly prediction."

/-- All columns of the engineered frame that `df.dropna()` inspects, after
cleaning, the daily-only `fillna(0)`/`clip(lower=0)`, the log transform,
the three lags and the two rolling features.  (The monthly branch's
freshly reset integer `DATE` column is never NaN and cannot affect
`dropna`, so it is not materialised.) -/
def engineeredCols (log1pQ sqrtQ : ℚ → ℚ) (mode : Mode) (raw : RawFrame) :
    List (List (Option ℚ)) :=
  let base0 := raw.cols.map (cleanCol raw.nrows)
  let tbase0 := cleanCol raw.nrows raw.target
  let base : List (List (Option ℚ)) := match mode with
    | .daily => base0.map (List.map fun o => some (max 0 (o.getD 0)))
    | .monthly => base0
  let tbase : List (Option ℚ) := match mode with
    | .daily => tbase0.map fun o => some (max 0 (o.getD 0))
    | .monthly => tbase0
  let logF := base.map (List.map (Option.map log1pQ))
  let logT := tbase.map (Option.map log1pQ)
  let w := mode.prepRollWindow
  base ++ [tbase] ++ logF ++
    [logT, shiftK 1 logT, shiftK 3 logT, shiftK 7 logT,
      rollingApply w qmean logT,
      rollingApply w (fun l => sqrtQ (qvarSamp l)) logT]

/-- the row count left after `df.dropna()` — the quantity the source
compares against the minimum (15 daily, 7 monthly). -/
def usableCount (log1pQ sqrtQ : ℚ → ℚ) (mode : Mode) (raw : RawFrame) : ℕ :=
  (keptIdx (engineeredCols log1pQ sqrtQ mode raw) raw.nrows).length

/-- the successful output slice of the preprocessing state update. -/
structure PreOut where
  scaled : List (List ℚ)
  preprocessed_window : List FRow

/-- `preprocessing_agent` (preprocessing_agent.py lines 15-142) for the
daily/monthly modes: validation of the NASA frame, scaler loading
(injected; `none` = `joblib.load` raised), common cleanup, mode-specific
feature engineering, `dropna`, the minimum-row check, the `tail(N)`
window and the scaling step. -/
def preprocessing_agent (log1pQ sqrtQ : ℚ → ℚ) (mode : Mode)
    (scalerLoad : Option Scaler) (df : Option RawFrame) :
    Except String PreOut :=
  match df with
  | none => .error "No NASA data found in state."
  | some raw =>
    if raw.nrows = 0 then .error "No NASA data found in state."
    else
      match scalerLoad with
      | none => .error "Failed to load scaler."
      | some scaler =>
        let cols := engineeredCols log1pQ sqrtQ mode raw
        let kept := keptIdx cols raw.nrows
        if kept.length < mode.windowSize then .error (insufficientMsg mode)
        else
          let base0 := raw.cols.map (cleanCol raw.nrows)
          let tbase0 := cleanCol raw.nrows raw.target
          let base : List (List (Option ℚ)) := match mode with
            | .daily => base0.map (List.map fun o => some (max 0 (o.getD 0)))
            | .monthly => base0
          let tbase : List (Option ℚ) := match mode with
            | .daily => tbase0.map fun o => some (max 0 (o.getD 0))
            | .monthly => tbase0
          let logF := base.map (List.map (Option.map log1pQ))
          let logT := tbase.map (Option.map log1pQ)
          let w := mode.prepRollWindow
          let lag1 := shiftK 1 logT
          let lag3 := shiftK 3 logT
          let lag7 := shiftK 7 logT
          let rmean := rollingApply w qmean logT
          let rstd := rollingApply w (fun l => sqrtQ (qvarSamp l)) logT
          let widx := tailN mode.windowSize kept
          let window : List FRow := widx.map fun i =>
            { covs := logF.map fun c => colAt c i,
              lag1 := colAt lag1 i, lag3 := colAt lag3 i,
              lag7 := colAt lag7 i,
              rollMean := colAt rmean i, rollStd := colAt rstd i,
              logPrec := colAt logT i }
          match scaler.transform window with
          | none => .error "Scaling failed."
          | some scaled => .ok { scaled := scaled,
                                 preprocessed_window := window }

/-- C7: with a nonempty NASA frame and a loadable scaler, the
preprocessing agent fails with the mode's insufficient-data error exactly
when the usable row count after cleaning, lag and rolling-feature `dropna`
is below the minimum (15 daily, 7 monthly); no preprocessed window is
produced on that error, and any successful window has exactly the minimum
length. -/
theorem preprocessing_insufficient_data (log1pQ sqrtQ : ℚ → ℚ) (mode : Mode)
    (scaler : Scaler) (raw : RawFrame) (hnz : raw.nrows ≠ 0) :
    (preprocessing_agent log1pQ sqrtQ mode (some scaler) (some raw) =
        .error (insufficientMsg mode) ↔
      usableCount log1pQ sqrtQ mode raw < mode.windowSize) ∧
    (∀ out, preprocessing_agent log1pQ sqrtQ mode (some scaler) (some raw) =
        .ok out → out.preprocessed_window.length = mode.windowSize) := by
  have hkept : (keptIdx (engineeredCols log1pQ sqrtQ mode raw) raw.nrows).length
      = usableCount log1pQ sqrtQ mode raw := rfl
  constructor
  · constructor
    · intro herr
      by_contra hge
      simp only [preprocessing_agent, if_neg hnz] at herr
      rw [hkept, if_neg hge] at herr
      cases htr : scaler.transform _ <;> rw [htr] at herr
      · have : ("Scaling failed." : String) = insufficientMsg mode := by
          injection herr
        cases mode <;> exact absurd this (by decide)
      · exact absurd herr (by simp)
    · intro hlt
      simp only [preprocessing_agent, if_neg hnz]
      rw [hkept, if_pos hlt]
  · intro out hout
    simp only [preprocessing_agent, if_neg hnz] at hout
    by_cases hlt : usableCount log1pQ sqrtQ mode raw < mode.windowSize
    · rw [hkept, if_pos hlt] at hout
      exact absurd hout (by simp)
    · rw [hkept, if_neg hlt] at hout
      cases htr : scaler.transform _ <;> rw [htr] at hout
      · exact absurd hout (by simp)
      · injection hout with hout
        subst hout
        simp only [List.length_map, tailN, List.length_drop]
        omega

/-- Witness for C7 at a concrete input: a 10-row daily frame of all-zero
columns leaves 3 usable rows after the lag-7 dropna, below the 15-row
minimum, so the daily insufficient-data error is returned. -/
theorem preprocessing_insufficient_data_witness :
    ((preprocessing_agent id id Mode.daily
        (some ⟨fun _ => none, fun _ => none⟩)
        (some ⟨List.replicate 11 none, none, 10⟩) =
          .error (insufficientMsg Mode.daily) ↔
      usableCount id id Mode.daily ⟨List.replicate 11 none, none, 10⟩ <
        Mode.daily.windowSize) ∧
    (∀ out, preprocessing_agent id id Mode.daily
        (some ⟨fun _ => none, fun _ => none⟩)
        (some ⟨List.replicate 11 none, none, 10⟩) = .ok out →
      out.preprocessed_window.length = Mode.daily.windowSize)) ∧
    usableCount id id Mode.daily ⟨List.replicate 11 none, none, 10⟩ = 3 :=
  ⟨preprocessing_insufficient_data id id Mode.daily
      ⟨fun _ => none, fun _ => none⟩ ⟨List.replicate 11 none, none, 10⟩
      (by decide),
    by decide⟩

end RainPro
